import Mathlib

/-!
Verification development for `llm_data_checker.py`: a privacy-preserving
tabular-dataset profiler.  The Python source is shallowly embedded below:

* `getStructurePattern`  embeds `get_structure_pattern` (source lines 40-80);
* `profileName`          embeds the column-name profiling body (lines 274-324);
* `profileColumn`        embeds the per-column metrics computation (lines 150-266);
* `dfCheckerV2`          embeds `df_checker_v2` (lines 87-332), including the
  accidental nesting of the name-profiling loop inside the metrics loop and the
  resulting `UnboundLocalError` when the loop body never runs;
* `read_df`              embeds the input adapter (lines 15-29).

Numbers are modelled with `ℚ` (Python floats are rationals; no claim depends on
float rounding error).  Character classification (`isalpha`, `isdigit`,
`isupper`, `islower`) is modelled at ASCII granularity via Lean's `Char`
predicates; Python's methods are Unicode-aware, but every input the claims
speak about is ASCII.  The external descriptive-statistics provider (scipy
entropy, pandas std/skew) is out of scope per the specification, so those three
statistics are abstracted into a `StatsProvider`; every statistic the provider
computes is a function of the multiset of its inputs, so the embedding hands it
a canonically sorted list.  Mean, min, max, quantile (pandas linear
interpolation) and all counting statistics are embedded concretely.
-/

/-! ### Character helpers -/

def quoteChar : Char := Char.ofNat 39

def nlChar : Char := Char.ofNat 10

def tabChar : Char := Char.ofNat 9

def crChar : Char := Char.ofNat 13

/-! ### Structure abstractor: `get_structure_pattern` (lines 40-80)

The Python while-loop consumes at least one character per iteration; we embed
it with an explicit fuel argument equal to the input length, which is always
sufficient. -/

def tokenizeF : ℕ → List Char → List String
  | _, [] => []
  | 0, _ :: _ => []
  | fuel + 1, c :: rest =>
    if c.isAlpha then
      ("ALPHA(" ++ toString (1 + (rest.takeWhile Char.isAlpha).length) ++ ")")
        :: tokenizeF fuel (rest.drop (rest.takeWhile Char.isAlpha).length)
    else if c.isDigit then
      ("DIGIT(" ++ toString (1 + (rest.takeWhile Char.isDigit).length) ++ ")")
        :: tokenizeF fuel (rest.drop (rest.takeWhile Char.isDigit).length)
    else if c = nlChar then "NEWLINE" :: tokenizeF fuel rest
    else if c = tabChar then "TAB" :: tokenizeF fuel rest
    else if c = crChar then "RETURN" :: tokenizeF fuel rest
    else if c = ' ' then "SPACE" :: tokenizeF fuel rest
    else (String.mk [quoteChar, c, quoteChar]) :: tokenizeF fuel rest

def tokenizeChars (l : List Char) : List String := tokenizeF l.length l

/-- `get_structure_pattern` applied to the textual form of a non-missing
value: `'-'.join(structure[:20])`. -/
def getStructurePattern (s : String) : String :=
  String.intercalate "-" ((tokenizeChars s.data).take 20)

/-- `get_structure_pattern` including the `pd.isna` guard: missing input
yields `None`. -/
def structureOf : Option String → Option String
  | none => none
  | some s => some (getStructurePattern s)

/-- The character-class abstraction of one character.  Letters and digits are
abstracted to their class; every other character (whitespace included, since
whitespace controls which fixed token is emitted) is kept. -/
inductive CharClass where
  | alpha : CharClass
  | digit : CharClass
  | other : Char → CharClass
deriving DecidableEq

def classOf (c : Char) : CharClass :=
  if c.isAlpha then .alpha else if c.isDigit then .digit else .other c

/-! ### Column-name profiler (source lines 274-324) -/

structure NameProfile where
  length : ℕ
  token_count : ℕ
  contains_digit : Bool
  contains_special_char : Bool
  case_pattern : String
  likely_id_column : Bool
  likely_datetime_column : Bool
  likely_amount_column : Bool
  likely_count_column : Bool
  likely_ratio_column : Bool
deriving DecidableEq

/-- Python `str.isupper`: at least one cased character and no lowercase cased
character (for the ASCII names at issue, cased = alphabetic). -/
def pyIsUpper (s : String) : Bool :=
  s.data.any Char.isAlpha && s.data.all (fun c => !c.isLower)

/-- Python `str.islower`: at least one cased character and no uppercase cased
character. -/
def pyIsLower (s : String) : Bool :=
  s.data.any Char.isAlpha && s.data.all (fun c => !c.isUpper)

def containsUnderscore (s : String) : Bool := s.data.any (fun c => c = '_')

/-- Python `name[:1].isupper()`. -/
def firstIsUpper (s : String) : Bool :=
  match s.data with
  | [] => false
  | c :: _ => c.isUpper

def anyUpperAfterFirst (s : String) : Bool := (s.data.drop 1).any Char.isUpper

/-- The case-pattern classification chain of source lines 293-304. -/
def casePatternOf (name : String) : String :=
  if pyIsUpper name then "UPPERCASE"
  else if pyIsLower name then "lowercase"
  else if containsUnderscore name then "snake_case"
  else if firstIsUpper name && !containsUnderscore name then "PascalCase"
  else if anyUpperAfterFirst name then "camelCase"
  else "mixed"

def isPfxList : List Char → List Char → Bool
  | [], _ => true
  | _ :: _, [] => false
  | a :: xs, b :: ys => a = b && isPfxList xs ys

/-- Python substring membership `pat in s`. -/
def containsSeg (pat : List Char) : List Char → Bool
  | [] => pat.isEmpty
  | b :: ys => isPfxList pat (b :: ys) || containsSeg pat ys

def strContains (s pat : String) : Bool := containsSeg pat.data s.data

/-- Python `str.split(sep)` for a single-character separator. -/
def splitOnChar (sep : Char) : List Char → List (List Char)
  | [] => [[]]
  | c :: cs =>
    if c = sep then [] :: splitOnChar sep cs
    else
      match splitOnChar sep cs with
      | [] => [[c]]
      | t :: ts => (c :: t) :: ts

/-- `len([t for t in tokens if t])` after `-` and space are normalised to `_`
and the name is split on `_`. -/
def tokenCountOf (name : String) : ℕ :=
  ((splitOnChar '_'
      (name.data.map (fun c => if c = '-' ∨ c = ' ' then '_' else c))).filter
    (fun t => !t.isEmpty)).length

/-- The column-name structural analysis of source lines 274-324, one name. -/
def profileName (name : String) : NameProfile :=
  let lowered := String.mk (name.data.map Char.toLower)
  { length := name.length
    token_count := tokenCountOf name
    contains_digit := name.data.any Char.isDigit
    contains_special_char := name.data.any (fun c => !c.isAlphanum && !(c = '_'))
    case_pattern := casePatternOf name
    likely_id_column := ["id", "uuid", "key", "ref"].any (fun k => strContains lowered k)
    likely_datetime_column := ["date", "time", "timestamp"].any (fun k => strContains lowered k)
    likely_amount_column :=
      ["amount", "price", "cost", "revenue", "salary"].any (fun k => strContains lowered k)
    likely_count_column :=
      ["count", "num", "qty", "quantity"].any (fun k => strContains lowered k)
    likely_ratio_column :=
      ["rate", "pct", "percent", "ratio"].any (fun k => strContains lowered k) }

/-! ### Data model

A pandas `DataFrame` is an ordered collection of named, dtype-tagged columns
over a shared row count.  Cells are `Option Value` (`none` = missing/NaN).
The dtype drives `select_dtypes`: `num` columns are the `include="number"`
ones, `obj` the `include="object"` ones, `other` everything else. -/

inductive Value where
  | num : ℚ → Value
  | str : String → Value
deriving DecidableEq

def Value.numQ : Value → Option ℚ
  | .num q => some q
  | .str _ => none

/-- `str(value)`, as used by `astype(str)` on an object column. -/
def Value.textOf : Value → String
  | .num q => toString q
  | .str s => s

inductive DType where
  | num : DType
  | obj : DType
  | other : DType
deriving DecidableEq

structure Column where
  name : String
  dtype : DType
  cells : List (Option Value)
deriving DecidableEq

structure DataFrame where
  nrows : ℕ
  cols : List Column
deriving DecidableEq

/-- Well-formedness of a DataFrame: every column has exactly `nrows` cells and
column names are distinct (pandas indexing by a duplicated label does not
return a Series, so the profiler presupposes distinct names). -/
def DataFrame.WF (df : DataFrame) : Prop :=
  (∀ c ∈ df.cols, c.cells.length = df.nrows) ∧ (df.cols.map Column.name).Nodup

instance (df : DataFrame) : Decidable df.WF := by
  unfold DataFrame.WF; infer_instance

/-! ### Numeric helpers -/

/-- Python `round(x, n)` modelled over `ℚ` (ties never arise in the claims, so
round-half-up stands in for float banker's rounding). -/
def roundTo (n : ℕ) (q : ℚ) : ℚ := (round (q * 10 ^ n) : ℤ) / 10 ^ n

/-- The Python pattern `round(x, n) if x else None`, applied to a
possibly-missing raw value: `None` stays `None`, a falsy raw `0` becomes
`None`, anything else is rounded. -/
def truthyRound (n : ℕ) : Option ℚ → Option ℚ
  | none => none
  | some q => if q ≠ 0 then some (roundTo n q) else none

/-- Canonical ascending sort; used to present value multisets to statistics. -/
def sortAsc (l : List ℚ) : List ℚ := List.insertionSort (· ≤ ·) l

def sortNatAsc (l : List ℕ) : List ℕ := List.insertionSort (· ≤ ·) l

/-- pandas `Series.quantile(q)` with the default linear interpolation on the
sorted values. -/
def quantileInterp (l : List ℚ) (q : ℚ) : ℚ :=
  let s := sortAsc l
  if s = [] then 0
  else
    let h : ℚ := q * ((s.length : ℚ) - 1)
    let i : ℕ := (⌊h⌋ : ℤ).toNat
    let frac : ℚ := h - (⌊h⌋ : ℤ)
    let xlo := s.getD i 0
    let xhi := s.getD (i + 1) xlo
    xlo + frac * (xhi - xlo)

/-- The external descriptive-statistics provider (spec §1: out of scope).
Each statistic is a function of the multiset of its inputs; the embedding
always passes a canonically sorted list.  `entropyB2` receives the
value-frequency distribution (`value_counts(normalize=True)`), `std` and
`skew` the non-missing numeric sample. -/
structure StatsProvider where
  entropyB2 : List ℚ → ℚ
  std : List ℚ → ℚ
  skew : List ℚ → ℚ

/-- `^-?\d+(\.\d+)?$` via `re.match` (`$` also matches just before one
trailing newline), as applied by `str.match` on source lines 243-245. -/
def isNumericLike (s : String) : Bool :=
  let cs :=
    match s.data with
    | '-' :: rest => rest
    | cs => cs
  let ds := cs.takeWhile Char.isDigit
  let rest := cs.dropWhile Char.isDigit
  !ds.isEmpty &&
    (match rest with
     | [] => true
     | c :: r2 =>
       if c = nlChar then r2.isEmpty
       else if c = '.' then
         let fs := r2.takeWhile Char.isDigit
         let r3 := r2.dropWhile Char.isDigit
         !fs.isEmpty && (r3.isEmpty || (r3 = [nlChar]))
       else false)

/-! ### Per-column metrics (source lines 150-266) -/

/-- `series.dropna()`. -/
def colNonNull (c : Column) : List Value := c.cells.filterMap id

/-- `series.nunique(dropna=True)`. -/
def colNunique (c : Column) : ℕ := (colNonNull c).dedup.length

/-- `unique_ratio = nunique / total_rows` (raw, before rounding). -/
def colUniqueRatio (c : Column) (totalRows : ℕ) : ℚ :=
  (colNunique c : ℚ) / (totalRows : ℚ)

/-- The multiset of value frequencies of the non-missing values, canonically
sorted ascending. -/
def sortedCounts (l : List Value) : List ℕ :=
  sortNatAsc (l.dedup.map (fun v => l.count v))

/-- `non_null.value_counts(normalize=True)`: the frequency distribution as
probabilities (canonical order). -/
def probsOf (l : List Value) : List ℚ :=
  (sortedCounts l).map (fun k => (k : ℚ) / (l.length : ℚ))

/-- `entropy_score`: computed only when `1 < nunique < 10000` (lines 164-170),
otherwise `None`. -/
def colEntropyScore (P : StatsProvider) (c : Column) : Option ℚ :=
  if 1 < colNunique c ∧ colNunique c < 10000 then
    some (P.entropyB2 (probsOf (colNonNull c)))
  else none

/-- The most frequent value's count (`value_counts().iloc[0]`). -/
def maxCount (l : List Value) : ℕ :=
  (l.dedup.map (fun v => l.count v)).foldr max 0

/-- `dominant_pct` (lines 176-181): `None` unless `nunique > 0`. -/
def colDominantPct (c : Column) : Option ℚ :=
  if 0 < colNunique c then
    some ((maxCount (colNonNull c) : ℚ) / ((colNonNull c).length : ℚ) * 100)
  else none

/-- The numeric view of the non-missing values. -/
def colNums (c : Column) : List ℚ := (colNonNull c).filterMap Value.numQ

def colMean (c : Column) : ℚ := (colNums c).sum / ((colNums c).length : ℚ)

def colMin (c : Column) : ℚ := (sortAsc (colNums c)).headD 0

def colMax (c : Column) : ℚ := (sortAsc (colNums c)).getLastD 0

def colStd (P : StatsProvider) (c : Column) : ℚ := P.std (sortAsc (colNums c))

def colSkew (P : StatsProvider) (c : Column) : ℚ := P.skew (sortAsc (colNums c))

def colQ1 (c : Column) : ℚ := quantileInterp (colNums c) (1 / 4)

def colQ3 (c : Column) : ℚ := quantileInterp (colNums c) (3 / 4)

/-- Count of non-missing values outside `[Q1 - 1.5*IQR, Q3 + 1.5*IQR]`
(lines 216-217). -/
def colOutlierCount (c : Column) : ℕ :=
  (colNums c).countP (fun v =>
    decide (v < colQ1 c - 3 / 2 * (colQ3 c - colQ1 c)) ||
    decide (v > colQ3 c + 3 / 2 * (colQ3 c - colQ1 c)))

/-- The raw `outlier_pct` variable (lines 211-221): only computed when the
non-missing count exceeds 20; the denominator is `total_rows`, not `n`. -/
def colOutlierRaw (c : Column) (totalRows : ℕ) : Option ℚ :=
  if 20 < (colNonNull c).length then
    some ((colOutlierCount c : ℚ) / (totalRows : ℚ) * 100)
  else none

/-- `numeric_like_ratio` raw value (lines 240-245): fraction of the stringified
non-missing values fully matching the integer-or-decimal pattern. -/
def colNumericLikeRatio (c : Column) : ℚ :=
  ((((colNonNull c).map Value.textOf).countP isNumericLike : ℚ)) /
    (((colNonNull c).map Value.textOf).length : ℚ)

/-- `likely_identifier` (lines 258-262): raw `unique_ratio > 0.95`, entropy
computed, raw entropy `> 4`. -/
def colLikelyIdentifier (P : StatsProvider) (c : Column) (totalRows : ℕ) : Bool :=
  decide (colUniqueRatio c totalRows > 0.95) &&
    (match colEntropyScore P c with
     | some e => decide (e > 4)
     | none => false)

/-- One column's entry of `column_profiles`.  Absent dictionary keys and keys
explicitly set to `None` are both modelled as `none`. -/
structure ColumnProfile where
  unique_count : ℕ
  unique_ratio : ℚ
  entropy : Option ℚ
  dominant_value_pct : Option ℚ
  near_zero_variance : Bool
  mean : Option ℚ
  std : Option ℚ
  min : Option ℚ
  max : Option ℚ
  skewness : Option ℚ
  highly_skewed : Option Bool
  outlier_pct : Option ℚ
  numeric_like_ratio : Option ℚ
  mixed_type_suspected : Option Bool
  likely_identifier : Bool
deriving DecidableEq

/-- The per-column profile construction of source lines 150-266 (the body of
the metrics loop for a column with `total_rows > 0`). -/
def profileColumn (P : StatsProvider) (c : Column) (totalRows : ℕ) : ColumnProfile :=
  let base : ColumnProfile :=
    { unique_count := colNunique c
      unique_ratio := roundTo 3 (colUniqueRatio c totalRows)
      entropy := truthyRound 2 (colEntropyScore P c)
      dominant_value_pct := truthyRound 1 (colDominantPct c)
      near_zero_variance :=
        match colDominantPct c with
        | some d => decide (d > 95)
        | none => false
      mean := none, std := none, min := none, max := none
      skewness := none, highly_skewed := none, outlier_pct := none
      numeric_like_ratio := none, mixed_type_suspected := none
      likely_identifier := false }
  let withNum : ColumnProfile :=
    if c.dtype = DType.num ∧ 0 < (colNonNull c).length then
      { base with
        mean := some (roundTo 2 (colMean c))
        std := some (roundTo 2 (colStd P c))
        min := some (colMin c)
        max := some (colMax c)
        skewness := some (roundTo 2 (colSkew P c))
        highly_skewed := some (decide (|colSkew P c| > 2))
        outlier_pct := truthyRound 2 (colOutlierRaw c totalRows) }
    else base
  let withCat : ColumnProfile :=
    if c.dtype = DType.obj ∧ 0 < (colNonNull c).length then
      { withNum with
        numeric_like_ratio := some (roundTo 3 (colNumericLikeRatio c))
        mixed_type_suspected :=
          some (decide (0.2 < colNumericLikeRatio c ∧ colNumericLikeRatio c < 0.8)) }
    else withNum
  { withCat with likely_identifier := colLikelyIdentifier P c totalRows }

/-! ### Dataset orchestrator: `df_checker_v2` (source lines 87-332)

The Python function builds `column_profiles` in a loop over `data.columns`;
the name-profiling section (lines 268-324) sits *inside* that loop and
rebuilds `column_name_profiles` from scratch on every iteration (its inner
`for col in data.columns` rebinds `col`, which does not disturb the outer
loop's iterator).  `column_name_profiles` is therefore assigned only when the
outer loop body runs at least once past the `total_rows == 0` `continue`; the
final `return` raises `UnboundLocalError` otherwise.  This is modelled by a
fold whose state carries `column_name_profiles : Option _`, with `none`
standing for "unbound", and an `Except` result. -/

/-- `data.isna().mean() * 100` for one column (over `ℚ`, an empty column gives
`0`; pandas gives `NaN` — both fail the `> 10` filter below). -/
def missingPct (c : Column) (nrows : ℕ) : ℚ :=
  ((c.cells.countP (fun x => x.isNone) : ℚ) / (nrows : ℚ)) * 100

/-- `per_null[per_null > 10].round(2)` (lines 127-130): filter on the raw
percentage, report it rounded to 2 decimals, in column order. -/
def highMissingOf (df : DataFrame) : List (String × ℚ) :=
  df.cols.filterMap (fun c =>
    if missingPct c df.nrows > 10 then some (c.name, roundTo 2 (missingPct c df.nrows))
    else none)

/-- `data.dtypes.value_counts().to_dict()`: occurrence count of each observed
storage type (canonical key order). -/
def dtypeCountsOf (df : DataFrame) : List (DType × ℕ) :=
  [DType.num, DType.obj, DType.other].filterMap (fun d =>
    if 0 < df.cols.countP (fun c => c.dtype = d) then
      some (d, df.cols.countP (fun c => c.dtype = d))
    else none)

/-- The inner name-profiling loop (lines 272-324): builds the dict afresh over
all columns, in column order. -/
def nameProfilesOf (df : DataFrame) : List (String × NameProfile) :=
  df.cols.foldl (fun acc c => acc ++ [(c.name, profileName c.name)]) []

structure Report where
  shape : ℕ × ℕ
  dtype_counts : List (DType × ℕ)
  high_missing_columns_pct : List (String × ℚ)
  column_profiles : List (String × ColumnProfile)
  column_name_profiles : List (String × NameProfile)
  privacy_note : String
deriving DecidableEq

/-- The local variables of the outer column loop that survive between
iterations; `column_name_profiles = none` models the unbound state. -/
structure LoopState where
  column_profiles : List (String × ColumnProfile)
  column_name_profiles : Option (List (String × NameProfile))
deriving DecidableEq

/-- One iteration of the outer loop (lines 138-324): `continue` when
`total_rows == 0` (every column has `total_rows = nrows`), otherwise extend
`column_profiles` and rebuild `column_name_profiles` from scratch. -/
def outerStep (P : StatsProvider) (df : DataFrame) (st : LoopState) (c : Column) : LoopState :=
  if df.nrows = 0 then st
  else
    { column_profiles := st.column_profiles ++ [(c.name, profileColumn P c df.nrows)]
      column_name_profiles := some (nameProfilesOf df) }

/-- `df_checker_v2` (lines 87-332).  `Except.error` models the
`UnboundLocalError` raised by the final `return` when `column_name_profiles`
was never assigned. -/
def dfCheckerV2 (P : StatsProvider) (df : DataFrame) : Except String Report :=
  let st := df.cols.foldl (outerStep P df) ⟨[], none⟩
  match st.column_name_profiles with
  | none => .error "UnboundLocalError: local variable column_name_profiles referenced before assignment"
  | some nps =>
    .ok { shape := (df.nrows, df.cols.length)
          dtype_counts := dtypeCountsOf df
          high_missing_columns_pct := highMissingOf df
          column_profiles := st.column_profiles
          column_name_profiles := nps
          privacy_note := "All metrics derived from structural and schema-level properties only." }

/-! ### Input adapter: `read_df` (source lines 15-29) -/

/-- Inputs to `read_df`: a DataFrame, a path-like value (`str`/`os.PathLike`,
accepted by `pathlib.Path`), or anything else (on which `pathlib.Path` raises
`TypeError`). -/
inductive ReadInput where
  | dataframe : DataFrame → ReadInput
  | pathlike : String → ReadInput
  | otherInput : ReadInput

inductive ReadResult where
  | df : DataFrame → ReadResult
  | noDataset : ReadResult
  | invalidInputType : String → ReadResult
deriving DecidableEq

/-- The filesystem and CSV loader `read_df` collaborates with. -/
structure FileSystem where
  isFile : String → Bool
  load : String → DataFrame

/-- `pathlib.PurePath.name`: the final path component. -/
def pathNameChars (p : String) : List Char :=
  ((splitOnChar '/' p.data).filter (fun s => !s.isEmpty)).getLastD []

/-- `pathlib.PurePath.suffix`: the part of the name from its last dot, empty
when the last dot is the first or the last character of the name. -/
def pathSuffix (p : String) : String :=
  let name := pathNameChars p
  match ((List.range name.length).filter (fun i => name.getD i ' ' = '.')).getLast? with
  | some i => if 0 < i ∧ i + 1 < name.length then String.mk (name.drop i) else ""
  | none => ""

/-- `read_df` (lines 15-29): pass a DataFrame through; raise
`TypeError("Input must be a DataFrame or a path to a CSV file")` when
`pathlib.Path` rejects the input; load an existing `.csv` file; otherwise
print a console message and return the `None` sentinel. -/
def read_df (fs : FileSystem) : ReadInput → ReadResult
  | .dataframe d => .df d
  | .otherInput => .invalidInputType "Input must be a DataFrame or a path to a CSV file"
  | .pathlike p =>
    if fs.isFile p && (pathSuffix p = ".csv") then .df (fs.load p)
    else .noDataset

/-! ### Concrete instances used by witnesses and counterexamples -/

deriving instance DecidableEq for Except

/-- A concrete provider instance (the claims quantify over providers; witnesses
need one that evaluates). -/
def trivProvider : StatsProvider := ⟨fun _ => 0, fun _ => 0, fun _ => 0⟩

/-- One object column, two rows, both missing. -/
def colAllMissing : Column := ⟨"a", DType.obj, [none, none]⟩

def dfAllMissing : DataFrame := ⟨2, [colAllMissing]⟩

/-- One numeric column, zero rows. -/
def dfZeroRows : DataFrame :=
  ⟨0, [⟨"a", DType.num, []⟩]⟩

/-- Three rows, zero columns. -/
def dfZeroCols : DataFrame :=
  ⟨3, []⟩

/-- Object column whose values are all non-numeric-looking strings. -/
def colAllText : Column :=
  ⟨"b", DType.obj, [some (.str "x"), some (.str "y"), some (.str "x")]⟩

/-- Numeric column with 25 non-missing values, one extreme outlier. -/
def colOutlier : Column :=
  ⟨"v", DType.num,
    [some (.num 1), some (.num 2), some (.num 3), some (.num 4), some (.num 5),
     some (.num 6), some (.num 7), some (.num 8), some (.num 9), some (.num 10),
     some (.num 11), some (.num 12), some (.num 13), some (.num 14), some (.num 15),
     some (.num 16), some (.num 17), some (.num 18), some (.num 19), some (.num 20),
     some (.num 21), some (.num 22), some (.num 23), some (.num 24), some (.num 1000)]⟩

/-- A small two-row DataFrame and its row-swapped permutation. -/
def dfTwoRows : DataFrame :=
  ⟨2, [⟨"id", DType.num, [some (.num 1), some (.num 2)]⟩,
       ⟨"tag", DType.obj, [some (.str "x"), none]⟩]⟩

def dfTwoRowsSwapped : DataFrame :=
  ⟨2, [⟨"id", DType.num, [some (.num 2), some (.num 1)]⟩,
       ⟨"tag", DType.obj, [none, some (.str "x")]⟩]⟩

/-- A provider whose entropy statistic is the constant 5 (> 4), for witnesses
that exercise the entropy-dependent paths. -/
def entProvider : StatsProvider := ⟨fun _ => 5, fun _ => 0, fun _ => 0⟩

/-- Object column with three distinct values over three rows. -/
def colThreeDistinct : Column :=
  ⟨"k", DType.obj, [some (.str "p"), some (.str "q"), some (.str "r")]⟩

/-- A filesystem on which no path is a file. -/
def emptyFS : FileSystem := ⟨fun _ => false, fun _ => dfZeroCols⟩

/-- Projection of a profiling outcome to its report, when any. -/
def reportOf : Except String Report → Option Report
  | .ok r => some r
  | .error _ => none

/-- The single-pass column-name profiling that the accidental nesting is
claimed to be equivalent to: each column name profiled exactly once, in
column order (the claim's reference behaviour). -/
def singlePassNameProfiles (df : DataFrame) : List (String × NameProfile) :=
  df.cols.map (fun c => (c.name, profileName c.name))

/-- Correspondence of two columns up to row reordering: same name, same dtype,
cells a permutation of each other. -/
def ColPerm (c c2 : Column) : Prop :=
  c.name = c2.name ∧ c.dtype = c2.dtype ∧ c.cells.Perm c2.cells

/-- Correspondence of two DataFrames up to row reordering.  Permuting the rows
of a dataset permutes every column's cells, so the relation induced by a row
permutation implies this columnwise one. -/
def DFPerm (df df2 : DataFrame) : Prop :=
  df.nrows = df2.nrows ∧ List.Forall₂ ColPerm df.cols df2.cols


/-! ## Helper lemmas -/

theorem foldl_append_map {α β : Type _} (f : α → β) :
    ∀ (l : List α) (acc : List β),
      l.foldl (fun a c => a ++ [f c]) acc = acc ++ l.map f := by
  intro l
  induction l with
  | nil => intro acc; simp
  | cons c cs ih => intro acc; simp [ih]

theorem nameProfilesOf_eq (df : DataFrame) :
    nameProfilesOf df = singlePassNameProfiles df := by
  unfold nameProfilesOf singlePassNameProfiles
  simpa using foldl_append_map (fun c : Column => (c.name, profileName c.name)) df.cols []

theorem outer_foldl_pos (P : StatsProvider) (df : DataFrame) (hn : df.nrows ≠ 0) :
    ∀ (L : List Column) (ps : List (String × ColumnProfile))
      (np : Option (List (String × NameProfile))),
      L.foldl (outerStep P df) ⟨ps, np⟩ =
        ⟨ps ++ L.map (fun c => (c.name, profileColumn P c df.nrows)),
          if L.isEmpty then np else some (nameProfilesOf df)⟩ := by
  intro L
  induction L with
  | nil => intro ps np; simp
  | cons c cs ih =>
    intro ps np
    simp only [List.foldl_cons, outerStep, if_neg hn, List.map_cons, List.isEmpty_cons]
    rw [ih]
    cases h : cs.isEmpty
    · simp
    · simp

theorem dfCheckerV2_ok (P : StatsProvider) (df : DataFrame)
    (hc : df.cols ≠ []) (hn : df.nrows ≠ 0) :
    dfCheckerV2 P df =
      .ok { shape := (df.nrows, df.cols.length)
            dtype_counts := dtypeCountsOf df
            high_missing_columns_pct := highMissingOf df
            column_profiles := df.cols.map (fun c => (c.name, profileColumn P c df.nrows))
            column_name_profiles := nameProfilesOf df
            privacy_note :=
              "All metrics derived from structural and schema-level properties only." } := by
  unfold dfCheckerV2
  rw [outer_foldl_pos P df hn df.cols [] none]
  have hne : df.cols.isEmpty = false := by
    cases h : df.cols
    · exact absurd h hc
    · simp [h]
  rw [hne]
  simp

/-! ## C1 -/

/-- **C1** (status: code bug).  The claim says `df_checker_v2` returns a
complete report for every well-formed DataFrame, including one with zero rows
or zero columns.  In the code the name-profiling block is nested inside the
per-column metrics loop, so `column_name_profiles` is assigned only when that
loop body executes at least once past the `total_rows == 0` `continue`; for a
DataFrame with zero rows (and at least one column) or with zero columns the
final `return` raises `UnboundLocalError`.  This theorem evaluates the
embedded code at both failing inputs. -/
theorem c1_zero_rows_or_zero_cols_raise :
    dfCheckerV2 trivProvider dfZeroRows =
        .error "UnboundLocalError: local variable column_name_profiles referenced before assignment" ∧
      dfCheckerV2 trivProvider dfZeroCols =
        .error "UnboundLocalError: local variable column_name_profiles referenced before assignment" := by
  constructor
  · with_unfolding_all decide
  · with_unfolding_all decide

/-! ## C9 -/

/-- **C9** (status: confirmed).  `read_df` fails with the
`InvalidInputType` error (`TypeError("Input must be a DataFrame or a path to a
CSV file")`) on any input that is neither a DataFrame nor path-like, and
yields the `None` sentinel (not an error) on any path-like input that is not
an existing file with suffix `.csv`. -/
theorem c9_read_df_error_handling :
    ∀ (fs : FileSystem) (p : String),
      read_df fs ReadInput.otherInput =
          ReadResult.invalidInputType "Input must be a DataFrame or a path to a CSV file" ∧
        (¬(fs.isFile p = true ∧ pathSuffix p = ".csv") →
          read_df fs (ReadInput.pathlike p) = ReadResult.noDataset) := by
  intro fs p
  refine ⟨rfl, fun h => ?_⟩
  have hcond : (fs.isFile p && decide (pathSuffix p = ".csv")) = false := by
    by_cases hf : fs.isFile p = true
    · have : ¬(pathSuffix p = ".csv") := fun hs => h ⟨hf, hs⟩
      simp [this]
    · simp only [Bool.not_eq_true] at hf
      simp [hf]
  simp [read_df, hcond]

/-- Witness for C9 at a concrete filesystem and path. -/
theorem c9_witness :
    ¬(emptyFS.isFile "data.txt" = true ∧ pathSuffix "data.txt" = ".csv") ∧
      read_df emptyFS (ReadInput.pathlike "data.txt") = ReadResult.noDataset :=
  ⟨by decide, (c9_read_df_error_handling emptyFS "data.txt").2 (by decide)⟩

/-! ## C3 -/

/-- **C3 counterexample**.  The claim states that `"user_id"` is classified as
`snake_case`.  In Python `"user_id".islower()` is `True` (the underscore is
uncased), so the `lowercase` branch fires before the underscore check and the
code classifies `"user_id"` as `lowercase`. -/
theorem c3_user_id_counterexample :
    (profileName "user_id").case_pattern = "lowercase" ∧
      ¬((profileName "user_id").case_pattern = "snake_case") := by
  decide

/-- **C3** (status: corrected).  The priority chain holds with Python's
`isupper`/`islower` semantics: "fully uppercase/lowercase" means all *cased*
characters are upper/lower-case and at least one cased character exists, so an
underscore does not block the `lowercase` branch.  Consequently `"user_id"`
classifies as `lowercase` (not `snake_case`, as the claim's example says) with
`likely_id_column = true`; `"TotalRevenue"` classifies as `PascalCase` with
`likely_amount_column = true`. -/
theorem c3_case_pattern_priority :
    (∀ name : String, pyIsUpper name = true → casePatternOf name = "UPPERCASE") ∧
      (∀ name : String, pyIsUpper name = false → pyIsLower name = true →
        casePatternOf name = "lowercase") ∧
      (∀ name : String, pyIsUpper name = false → pyIsLower name = false →
        containsUnderscore name = true → casePatternOf name = "snake_case") ∧
      (∀ name : String, pyIsUpper name = false → pyIsLower name = false →
        containsUnderscore name = false → firstIsUpper name = true →
        casePatternOf name = "PascalCase") ∧
      (∀ name : String, pyIsUpper name = false → pyIsLower name = false →
        containsUnderscore name = false → firstIsUpper name = false →
        anyUpperAfterFirst name = true → casePatternOf name = "camelCase") ∧
      (∀ name : String, pyIsUpper name = false → pyIsLower name = false →
        containsUnderscore name = false → firstIsUpper name = false →
        anyUpperAfterFirst name = false → casePatternOf name = "mixed") ∧
      (profileName "user_id").case_pattern = "lowercase" ∧
      (profileName "user_id").likely_id_column = true ∧
      (profileName "TotalRevenue").case_pattern = "PascalCase" ∧
      (profileName "TotalRevenue").likely_amount_column = true := by
  refine ⟨?_, ?_, ?_, ?_, ?_, ?_, by decide, by decide, by decide, by decide⟩
  · intro name h1
    simp [casePatternOf, h1]
  · intro name h1 h2
    simp [casePatternOf, h1, h2]
  · intro name h1 h2 h3
    simp [casePatternOf, h1, h2, h3]
  · intro name h1 h2 h3 h4
    simp [casePatternOf, h1, h2, h3, h4]
  · intro name h1 h2 h3 h4 h5
    simp [casePatternOf, h1, h2, h3, h4, h5]
  · intro name h1 h2 h3 h4 h5
    simp [casePatternOf, h1, h2, h3, h4, h5]

/-- Witness for C3: the `lowercase` branch of the chain applied at
`"user_id"`. -/
theorem c3_witness :
    pyIsUpper "user_id" = false ∧ pyIsLower "user_id" = true ∧
      casePatternOf "user_id" = "lowercase" :=
  ⟨by decide, by decide,
    c3_case_pattern_priority.2.1 "user_id" (by decide) (by decide)⟩

/-! ## C7 -/

theorem isDigit_false_of_isAlpha {c : Char} (h : c.isAlpha = true) : c.isDigit = false := by
  simp only [Char.isAlpha, Char.isUpper, Char.isLower, Char.isDigit, Bool.or_eq_true,
    Bool.and_eq_true, decide_eq_true_eq] at h
  simp only [Char.isDigit, Bool.and_eq_false_iff, decide_eq_false_iff_not, ge_iff_le, not_le]
  have e65 : ((65 : UInt32).toBitVec).toNat = 65 := rfl
  have e90 : ((90 : UInt32).toBitVec).toNat = 90 := rfl
  have e97 : ((97 : UInt32).toBitVec).toNat = 97 := rfl
  have e122 : ((122 : UInt32).toBitVec).toNat = 122 := rfl
  have e48 : ((48 : UInt32).toBitVec).toNat = 48 := rfl
  have e57 : ((57 : UInt32).toBitVec).toNat = 57 := rfl
  rcases h with ⟨h1, h2⟩ | ⟨h1, h2⟩ <;>
  · simp only [ge_iff_le, UInt32.le_def, BitVec.le_def, UInt32.lt_def, BitVec.lt_def,
      e65, e90, e97, e122, e48, e57] at h1 h2 ⊢
    omega

theorem isAlpha_eq_of_classOf {c d : Char} (h : classOf c = classOf d) :
    c.isAlpha = d.isAlpha := by
  cases hca : c.isAlpha <;> cases hda : d.isAlpha <;>
    simp only [classOf, hca, hda, Bool.false_eq_true, if_true, if_false] at h ⊢ <;>
    first
      | rfl
      | (split at h <;> simp_all)

theorem isDigit_eq_of_classOf {c d : Char} (h : classOf c = classOf d) :
    c.isDigit = d.isDigit := by
  have ha := isAlpha_eq_of_classOf h
  cases hca : c.isAlpha
  · have hda : d.isAlpha = false := by rw [← ha, hca]
    cases hcd : c.isDigit <;> cases hdd : d.isDigit <;>
      simp only [classOf, hca, hda, hcd, hdd, Bool.false_eq_true, if_true, if_false] at h ⊢ <;>
      simp_all
  · have hda : d.isAlpha = true := by rw [← ha, hca]
    rw [isDigit_false_of_isAlpha hca, isDigit_false_of_isAlpha hda]

theorem eq_of_classOf_other {c d : Char} (h : classOf c = classOf d)
    (ha : c.isAlpha = false) (hd : c.isDigit = false) : c = d := by
  have ha2 : d.isAlpha = false := by rw [← isAlpha_eq_of_classOf h, ha]
  have hd2 : d.isDigit = false := by rw [← isDigit_eq_of_classOf h, hd]
  simp only [classOf, ha, hd, ha2, hd2, Bool.false_eq_true, if_false] at h
  exact CharClass.other.inj h

theorem takeWhile_len_eq {p : Char → Bool}
    (hp : ∀ a b : Char, classOf a = classOf b → p a = p b) :
    ∀ {r r2 : List Char}, r.map classOf = r2.map classOf →
      (r.takeWhile p).length = (r2.takeWhile p).length := by
  intro r
  induction r with
  | nil =>
    intro r2 h
    cases r2 with
    | nil => rfl
    | cons b bs => simp at h
  | cons a as ih =>
    intro r2 h
    cases r2 with
    | nil => simp at h
    | cons b bs =>
      simp only [List.map_cons, List.cons.injEq] at h
      obtain ⟨h1, h2⟩ := h
      have hab := hp a b h1
      cases hpa : p a
      · have hpb : p b = false := by rw [← hab, hpa]
        simp [List.takeWhile_cons, hpa, hpb]
      · have hpb : p b = true := by rw [← hab, hpa]
        simp [List.takeWhile_cons, hpa, hpb, ih h2]

theorem map_classOf_drop {r r2 : List Char} (h : r.map classOf = r2.map classOf) (k : ℕ) :
    (r.drop k).map classOf = (r2.drop k).map classOf := by
  simp only [List.map_drop]
  rw [h]

/-- Core congruence: the tokenizer depends only on the character-class
abstraction of its input (which letters or digits occur is not recoverable;
"other" characters are part of the abstraction because they are emitted
verbatim). -/
theorem tokenizeF_congr :
    ∀ (n : ℕ) (l l2 : List Char), l.map classOf = l2.map classOf →
      tokenizeF n l = tokenizeF n l2 := by
  intro n
  induction n with
  | zero =>
    intro l l2 h
    cases l <;> cases l2 <;> simp_all [tokenizeF]
  | succ n ih =>
    intro l l2 h
    cases l with
    | nil =>
      cases l2 with
      | nil => rfl
      | cons d rest2 => simp at h
    | cons c rest =>
      cases l2 with
      | nil => simp at h
      | cons d rest2 =>
        simp only [List.map_cons, List.cons.injEq] at h
        obtain ⟨hcd, hrest⟩ := h
        have halpha := isAlpha_eq_of_classOf hcd
        have hdigit := isDigit_eq_of_classOf hcd
        cases hca : c.isAlpha
        · cases hcd2 : c.isDigit
          · -- both c and d are "other" characters and therefore equal
            have hce : c = d := eq_of_classOf_other hcd hca hcd2
            subst hce
            have hT := ih _ _ hrest
            simp only [tokenizeF, hca, hcd2, Bool.false_eq_true, if_false, hT]
          · -- digit run
            have hda : d.isAlpha = false := by rw [← halpha, hca]
            have hdd : d.isDigit = true := by rw [← hdigit, hcd2]
            have hlen : (rest.takeWhile Char.isDigit).length =
                (rest2.takeWhile Char.isDigit).length :=
              takeWhile_len_eq (fun a b hab => isDigit_eq_of_classOf hab) hrest
            have hT : tokenizeF n (rest.drop (rest.takeWhile Char.isDigit).length) =
                tokenizeF n (rest2.drop (rest2.takeWhile Char.isDigit).length) := by
              rw [hlen]
              exact ih _ _ (map_classOf_drop hrest _)
            simp only [tokenizeF, hca, hda, hcd2, hdd, Bool.false_eq_true, if_false, if_true]
            rw [hT, hlen]
        · -- alpha run
          have hda : d.isAlpha = true := by rw [← halpha, hca]
          have hlen : (rest.takeWhile Char.isAlpha).length =
              (rest2.takeWhile Char.isAlpha).length :=
            takeWhile_len_eq (fun a b hab => isAlpha_eq_of_classOf hab) hrest
          have hT : tokenizeF n (rest.drop (rest.takeWhile Char.isAlpha).length) =
              tokenizeF n (rest2.drop (rest2.takeWhile Char.isAlpha).length) := by
            rw [hlen]
            exact ih _ _ (map_classOf_drop hrest _)
          simp only [tokenizeF, hca, hda, if_true]
          rw [hT, hlen]

/-- **C7 counterexample**.  The claim says no raw character content of the
input appears in the returned token string.  A non-alphanumeric,
non-whitespace input character is emitted verbatim as a quoted literal token:
for input `"@"` the output is `'@'`, which contains the input character. -/
theorem c7_retention_counterexample :
    getStructurePattern "@" = String.mk [quoteChar, '@', quoteChar] ∧
      '@' ∈ "@".data ∧ '@' ∈ (getStructurePattern "@").data := by
  refine ⟨by decide, by decide, by decide⟩

/-- **C7** (status: corrected).  `get_structure_pattern` is a pure function
(determinism and absence of side effects hold by construction of the
embedding).  It retains no alphabetic or digit content: the output depends
only on the character-class abstraction of the input, so replacing any letters
by other letters and any digits by other digits leaves the output unchanged.
However — contrary to the claim — each non-alphanumeric, non-whitespace
character is retained verbatim in the output as a quoted single-character
literal token. -/
theorem c7_structure_abstraction :
    (∀ s t : String, s.data.map classOf = t.data.map classOf →
        getStructurePattern s = getStructurePattern t) ∧
      (∀ c : Char, c.isAlpha = false → c.isDigit = false →
        c ≠ nlChar → c ≠ tabChar → c ≠ crChar → c ≠ ' ' →
        getStructurePattern (String.mk [c]) = String.mk [quoteChar, c, quoteChar]) := by
  constructor
  · intro s t h
    unfold getStructurePattern tokenizeChars
    have hlen : s.data.length = t.data.length := by
      have := congrArg List.length h
      simpa using this
    rw [hlen, tokenizeF_congr _ _ _ h]
  · intro c ha hd hn ht hr hs
    simp only [getStructurePattern, tokenizeChars, tokenizeF, ha, hd, hn, ht, hr, hs,
      Bool.false_eq_true, if_false, List.length_cons, List.length_nil]
    rfl

/-- Witness for C7: two inputs with the same class pattern (letters replaced
by other letters, digits by other digits) produce the same output. -/
theorem c7_witness :
    "ab1!".data.map classOf = "zx7!".data.map classOf ∧
      getStructurePattern "ab1!" = getStructurePattern "zx7!" :=
  ⟨by decide, c7_structure_abstraction.1 "ab1!" "zx7!" (by decide)⟩

/-! ## Field lemmas for `profileColumn` -/

theorem profileColumn_likely (P : StatsProvider) (c : Column) (t : ℕ) :
    (profileColumn P c t).likely_identifier = colLikelyIdentifier P c t := rfl

theorem profileColumn_unique_count (P : StatsProvider) (c : Column) (t : ℕ) :
    (profileColumn P c t).unique_count = colNunique c := by
  simp only [profileColumn]
  split <;> split <;> rfl

theorem profileColumn_unique_ratio (P : StatsProvider) (c : Column) (t : ℕ) :
    (profileColumn P c t).unique_ratio = roundTo 3 (colUniqueRatio c t) := by
  simp only [profileColumn]
  split <;> split <;> rfl

theorem profileColumn_entropy (P : StatsProvider) (c : Column) (t : ℕ) :
    (profileColumn P c t).entropy = truthyRound 2 (colEntropyScore P c) := by
  simp only [profileColumn]
  split <;> split <;> rfl

theorem profileColumn_dominant (P : StatsProvider) (c : Column) (t : ℕ) :
    (profileColumn P c t).dominant_value_pct = truthyRound 1 (colDominantPct c) := by
  simp only [profileColumn]
  split <;> split <;> rfl

theorem profileColumn_nzv (P : StatsProvider) (c : Column) (t : ℕ) :
    (profileColumn P c t).near_zero_variance =
      (match colDominantPct c with
       | some d => decide (d > 95)
       | none => false) := by
  simp only [profileColumn]
  split <;> split <;> rfl

theorem dtype_not_num_and_obj (c : Column) :
    ¬(c.dtype = DType.num ∧ c.dtype = DType.obj) := by
  intro h
  rw [h.1] at h
  exact absurd h.2 (by decide)

theorem profileColumn_outlier (P : StatsProvider) (c : Column) (t : ℕ) :
    (profileColumn P c t).outlier_pct =
      if c.dtype = DType.num ∧ 0 < (colNonNull c).length then
        truthyRound 2 (colOutlierRaw c t)
      else none := by
  by_cases hn : c.dtype = DType.num ∧ 0 < (colNonNull c).length
  · have hc : ¬(c.dtype = DType.obj ∧ 0 < (colNonNull c).length) := by
      intro hc
      exact dtype_not_num_and_obj c ⟨hn.1, hc.1⟩
    simp only [profileColumn, if_pos hn, if_neg hc]
  · by_cases hc : c.dtype = DType.obj ∧ 0 < (colNonNull c).length <;>
      simp only [profileColumn, if_pos, if_neg, hn, hc, if_true, if_false, ite_false, ite_true] <;>
      simp [hn, hc]

theorem profileColumn_skewness (P : StatsProvider) (c : Column) (t : ℕ) :
    (profileColumn P c t).skewness =
      if c.dtype = DType.num ∧ 0 < (colNonNull c).length then
        some (roundTo 2 (colSkew P c))
      else none := by
  by_cases hn : c.dtype = DType.num ∧ 0 < (colNonNull c).length
  · have hc : ¬(c.dtype = DType.obj ∧ 0 < (colNonNull c).length) := by
      intro hc
      exact dtype_not_num_and_obj c ⟨hn.1, hc.1⟩
    simp only [profileColumn, if_pos hn, if_neg hc]
  · by_cases hc : c.dtype = DType.obj ∧ 0 < (colNonNull c).length <;>
      simp only [profileColumn, if_pos, if_neg, hn, hc, if_true, if_false, ite_false, ite_true] <;>
      simp [hn, hc]

theorem profileColumn_ratio (P : StatsProvider) (c : Column) (t : ℕ) :
    (profileColumn P c t).numeric_like_ratio =
      if c.dtype = DType.obj ∧ 0 < (colNonNull c).length then
        some (roundTo 3 (colNumericLikeRatio c))
      else none := by
  by_cases hc : c.dtype = DType.obj ∧ 0 < (colNonNull c).length
  · simp only [profileColumn, if_pos hc]
  · by_cases hn : c.dtype = DType.num ∧ 0 < (colNonNull c).length <;>
      simp only [profileColumn, if_pos, if_neg, hn, hc, if_true, if_false] <;>
      simp [hn, hc]

/-! ## C5 -/

/-- **C5** (status: confirmed).  For a column of a dataset with
`total_rows > 0`, the reported `likely_identifier` flag is true iff the raw
`unique_ratio` exceeds 0.95, entropy was computed — which happens exactly when
`1 < unique_count < 10000` — and the computed entropy exceeds 4. -/
theorem c5_likely_identifier_iff :
    ∀ (P : StatsProvider) (c : Column) (t : ℕ), 0 < t →
      ((profileColumn P c t).likely_identifier = true ↔
        (colUniqueRatio c t > 0.95 ∧ (1 < colNunique c ∧ colNunique c < 10000) ∧
          P.entropyB2 (probsOf (colNonNull c)) > 4)) ∧
      (colEntropyScore P c ≠ none ↔ (1 < colNunique c ∧ colNunique c < 10000)) := by
  intro P c t ht
  constructor
  · rw [profileColumn_likely]
    unfold colLikelyIdentifier colEntropyScore
    by_cases h : 1 < colNunique c ∧ colNunique c < 10000
    · rw [if_pos h]
      simp [h]
    · rw [if_neg h]
      simp [h]
  · unfold colEntropyScore
    by_cases h : 1 < colNunique c ∧ colNunique c < 10000
    · rw [if_pos h]
      simp [h]
    · rw [if_neg h]
      simp [h]

/-- Witness for C5 at a concrete column (three distinct values over three
rows, a provider whose entropy statistic is the constant 5): the unique ratio
is `3/3 = 1 > 0.95`, entropy is computed (`1 < 3 < 10000`) and exceeds 4. -/
theorem c5_witness :
    0 < 3 ∧
      ((profileColumn entProvider colThreeDistinct 3).likely_identifier = true ↔
        (colUniqueRatio colThreeDistinct 3 > 0.95 ∧
          (1 < colNunique colThreeDistinct ∧ colNunique colThreeDistinct < 10000) ∧
          entProvider.entropyB2 (probsOf (colNonNull colThreeDistinct)) > 4)) :=
  ⟨by decide, (c5_likely_identifier_iff entProvider colThreeDistinct 3 (by decide)).1⟩

/-! ## C6 -/

/-- **C6** (status: confirmed).  For a numeric column, when the non-missing
count `n` exceeds 20 the raw `outlier_pct` equals the count of non-missing
values outside `[Q1 - 1.5*IQR, Q3 + 1.5*IQR]` divided by `total_rows` (the
full column length including missing entries, not `n`) times 100; when
`n ≤ 20` the raw value and the reported `outlier_pct` field are both
absent. -/
theorem c6_outlier_denominator_and_threshold :
    ∀ (P : StatsProvider) (c : Column) (t : ℕ), c.dtype = DType.num →
      (20 < (colNonNull c).length →
        colOutlierRaw c t = some ((colOutlierCount c : ℚ) / (t : ℚ) * 100)) ∧
      ((colNonNull c).length ≤ 20 →
        colOutlierRaw c t = none ∧ (profileColumn P c t).outlier_pct = none) := by
  intro P c t hd
  constructor
  · intro h
    unfold colOutlierRaw
    rw [if_pos h]
  · intro h
    have hraw : colOutlierRaw c t = none := by
      unfold colOutlierRaw
      rw [if_neg (not_lt.mpr h)]
    refine ⟨hraw, ?_⟩
    rw [profileColumn_outlier]
    by_cases hb : c.dtype = DType.num ∧ 0 < (colNonNull c).length
    · rw [if_pos hb, hraw]
      rfl
    · rw [if_neg hb]

/-- Witness for C6 at `colOutlier` (25 non-missing values, 24 small and one
extreme): `Q1 = 7`, `Q3 = 19`, exactly one value is outside the fences and the
raw percentage is `1/25*100 = 4`, computed against `total_rows = 25`. -/
theorem c6_witness :
    colOutlier.dtype = DType.num ∧ 20 < (colNonNull colOutlier).length ∧
      colOutlierRaw colOutlier 25 =
        some ((colOutlierCount colOutlier : ℚ) / (25 : ℚ) * 100) :=
  ⟨rfl, by decide,
    (c6_outlier_denominator_and_threshold trivProvider colOutlier 25 rfl).1 (by decide)⟩

/-! ## C4 -/

theorem truthyRound_eq_none (n : ℕ) (r : Option ℚ) :
    truthyRound n r = none ↔ r = none ∨ r = some 0 := by
  cases r with
  | none => simp [truthyRound]
  | some q =>
    by_cases hq : q = 0 <;> simp [truthyRound, hq]

/-- **C4 counterexample**.  The claim says every conditional numeric field
among `entropy, dominant_value_pct, outlier_pct, numeric_like_ratio, skewness`
whose value would be falsy-zero after rounding is reported as absent.  For an
object column with no numeric-looking values the raw and rounded
`numeric_like_ratio` are exactly `0`, yet the field is reported as `0`, not as
absent: the code has no truthiness conditional on this field. -/
theorem c4_counterexample :
    colNumericLikeRatio colAllText = 0 ∧
      roundTo 3 (colNumericLikeRatio colAllText) = 0 ∧
      (profileColumn trivProvider colAllText 3).numeric_like_ratio = some 0 := by
  refine ⟨?_, ?_, ?_⟩ <;> with_unfolding_all decide

/-- **C4** (status: corrected).  Only `entropy`, `dominant_value_pct` and
`outlier_pct` are subject to the falsy-zero-as-absent convention, and the
truthiness test is applied to the *raw* value before rounding: a raw value of
exactly 0 (or an uncomputed `None`) is reported as absent, while a nonzero raw
value is always reported rounded — even when it rounds to 0.
`numeric_like_ratio` and `skewness` are reported unconditionally within their
role blocks, so a zero value appears as `0`, not as absent. -/
theorem c4_falsy_zero_policy :
    ∀ (P : StatsProvider) (c : Column) (t : ℕ),
      ((profileColumn P c t).entropy = none ↔
        colEntropyScore P c = none ∨ colEntropyScore P c = some 0) ∧
      (∀ e : ℚ, colEntropyScore P c = some e → e ≠ 0 →
        (profileColumn P c t).entropy = some (roundTo 2 e)) ∧
      ((profileColumn P c t).dominant_value_pct = none ↔
        colDominantPct c = none ∨ colDominantPct c = some 0) ∧
      (∀ d : ℚ, colDominantPct c = some d → d ≠ 0 →
        (profileColumn P c t).dominant_value_pct = some (roundTo 1 d)) ∧
      (c.dtype = DType.num → 0 < (colNonNull c).length →
        (profileColumn P c t).outlier_pct = truthyRound 2 (colOutlierRaw c t) ∧
        (profileColumn P c t).skewness = some (roundTo 2 (colSkew P c))) ∧
      (c.dtype = DType.obj → 0 < (colNonNull c).length →
        (profileColumn P c t).numeric_like_ratio =
          some (roundTo 3 (colNumericLikeRatio c))) ∧
      (∀ (n : ℕ) (r : Option ℚ), truthyRound n r = none ↔ r = none ∨ r = some 0) := by
  intro P c t
  refine ⟨?_, ?_, ?_, ?_, ?_, ?_, truthyRound_eq_none⟩
  · rw [profileColumn_entropy]
    exact truthyRound_eq_none 2 _
  · intro e he hne
    rw [profileColumn_entropy, he]
    simp [truthyRound, hne]
  · rw [profileColumn_dominant]
    exact truthyRound_eq_none 1 _
  · intro d hd hne
    rw [profileColumn_dominant, hd]
    simp [truthyRound, hne]
  · intro hd hn
    refine ⟨?_, ?_⟩
    · rw [profileColumn_outlier, if_pos ⟨hd, hn⟩]
    · rw [profileColumn_skewness, if_pos ⟨hd, hn⟩]
  · intro hd hn
    rw [profileColumn_ratio, if_pos ⟨hd, hn⟩]

/-- Witness for C4: the unconditional `numeric_like_ratio` branch applied at
the concrete all-text column. -/
theorem c4_witness :
    colAllText.dtype = DType.obj ∧ 0 < (colNonNull colAllText).length ∧
      (profileColumn trivProvider colAllText 3).numeric_like_ratio =
        some (roundTo 3 (colNumericLikeRatio colAllText)) :=
  ⟨rfl, by decide,
    (c4_falsy_zero_policy trivProvider colAllText 3).2.2.2.2.2.1 rfl (by decide)⟩

/-! ## C10 -/

/-- **C10** (status: confirmed).  Although the name-profiling loop is nested
inside the per-column metrics loop (rebuilding `column_name_profiles` from
scratch and rebinding the loop variable `col` on every outer iteration —
which, by Python's for-loop semantics, does not disturb the outer iterator),
for every dataset with at least one column and at least one row the returned
`column_name_profiles` equals the single-pass mapping that profiles each
column name exactly once, and `column_profiles` shows the outer loop processed
every column exactly once, in order. -/
theorem c10_nested_loop_equivalence :
    ∀ (P : StatsProvider) (df : DataFrame), df.cols ≠ [] → 0 < df.nrows →
      ∃ r, dfCheckerV2 P df = .ok r ∧
        r.column_name_profiles = singlePassNameProfiles df ∧
        r.column_profiles = df.cols.map (fun c => (c.name, profileColumn P c df.nrows)) := by
  intro P df hc hn
  refine ⟨_, dfCheckerV2_ok P df hc hn.ne', ?_, rfl⟩
  exact nameProfilesOf_eq df

/-- Witness for C10 at a concrete two-column DataFrame. -/
theorem c10_witness :
    dfTwoRows.cols ≠ [] ∧ 0 < dfTwoRows.nrows ∧
      ∃ r, dfCheckerV2 trivProvider dfTwoRows = .ok r ∧
        r.column_name_profiles = singlePassNameProfiles dfTwoRows ∧
        r.column_profiles =
          dfTwoRows.cols.map (fun c => (c.name, profileColumn trivProvider c dfTwoRows.nrows)) :=
  ⟨by decide, by decide,
    c10_nested_loop_equivalence trivProvider dfTwoRows (by decide) (by decide)⟩

/-! ## C2 -/

/-- **C2 counterexample**.  The claim says an all-missing column (with row
count > 0) appears in `high_missing_columns_pct` at 100.0 but has *no* entry
in `column_profiles`.  In the code only `total_rows == 0` skips a column, so
the all-missing column does get a `column_profiles` entry: profiling
`dfAllMissing` (one object column `"a"`, two missing cells) reports
`high_missing_columns_pct = {"a": 100.0}` *and* an entry for `"a"` in
`column_profiles`. -/
theorem c2_counterexample :
    (reportOf (dfCheckerV2 trivProvider dfAllMissing)).map
        (fun r => (r.high_missing_columns_pct, r.column_profiles.map Prod.fst)) =
      some ([("a", (100 : ℚ))], ["a"]) := by
  with_unfolding_all decide

/-- **C2** (status: corrected).  An all-missing column of a dataset with
`nrows > 0` is listed in `high_missing_columns_pct` at 100.0 and — contrary to
the claim — also has an entry in `column_profiles`, with `unique_count = 0`,
`unique_ratio = 0`, absent `entropy` and `dominant_value_pct`,
`near_zero_variance = false` and `likely_identifier = false`. -/
theorem c2_all_missing_column :
    ∀ (P : StatsProvider) (df : DataFrame) (c : Column),
      df.WF → 0 < df.nrows → c ∈ df.cols → (∀ x ∈ c.cells, x = none) →
      ∃ r, dfCheckerV2 P df = .ok r ∧
        (c.name, (100 : ℚ)) ∈ r.high_missing_columns_pct ∧
        ∃ p, (c.name, p) ∈ r.column_profiles ∧
          p.unique_count = 0 ∧ p.unique_ratio = 0 ∧ p.entropy = none ∧
          p.dominant_value_pct = none ∧ p.near_zero_variance = false ∧
          p.likely_identifier = false := by
  intro P df c hwf hn hmem hall
  have hcols : df.cols ≠ [] := List.ne_nil_of_mem hmem
  refine ⟨_, dfCheckerV2_ok P df hcols hn.ne', ?_, ?_⟩
  · unfold highMissingOf
    apply List.mem_filterMap.mpr
    refine ⟨c, hmem, ?_⟩
    have hcnt : c.cells.countP (fun x => x.isNone) = c.cells.length :=
      List.countP_eq_length.mpr (fun a ha => by rw [hall a ha]; rfl)
    have hlen := hwf.1 c hmem
    have hnz : (df.nrows : ℚ) ≠ 0 := Nat.cast_ne_zero.mpr hn.ne'
    have hpct : missingPct c df.nrows = 100 := by
      unfold missingPct
      rw [hcnt, hlen, div_self hnz, one_mul]
    rw [hpct, if_pos (by norm_num)]
    have h100 : roundTo 2 (100 : ℚ) = 100 := by
      unfold roundTo
      norm_num
    rw [h100]
  · have hnn : colNonNull c = [] := by
      unfold colNonNull
      exact List.filterMap_eq_nil_iff.mpr (fun a ha => by rw [hall a ha]; rfl)
    have hnu : colNunique c = 0 := by
      unfold colNunique
      rw [hnn]
      rfl
    have hratio : colUniqueRatio c df.nrows = 0 := by
      unfold colUniqueRatio
      rw [hnu]
      simp
    have hent : colEntropyScore P c = none := by
      unfold colEntropyScore
      rw [hnu]
      exact if_neg (by omega)
    have hdom : colDominantPct c = none := by
      unfold colDominantPct
      rw [hnu]
      exact if_neg (lt_irrefl 0)
    refine ⟨profileColumn P c df.nrows, List.mem_map.mpr ⟨c, hmem, rfl⟩, ?_, ?_, ?_, ?_, ?_, ?_⟩
    · rw [profileColumn_unique_count]
      exact hnu
    · rw [profileColumn_unique_ratio, hratio]
      unfold roundTo
      norm_num
    · rw [profileColumn_entropy, hent]
      rfl
    · rw [profileColumn_dominant, hdom]
      rfl
    · rw [profileColumn_nzv, hdom]
    · rw [profileColumn_likely]
      unfold colLikelyIdentifier
      rw [hent]
      simp

/-- Witness for C2 at the concrete all-missing DataFrame. -/
theorem c2_witness :
    dfAllMissing.WF ∧ 0 < dfAllMissing.nrows ∧ colAllMissing ∈ dfAllMissing.cols ∧
      (∀ x ∈ colAllMissing.cells, x = none) ∧
      (∃ r, dfCheckerV2 trivProvider dfAllMissing = .ok r ∧
        (colAllMissing.name, (100 : ℚ)) ∈ r.high_missing_columns_pct ∧
        ∃ p, (colAllMissing.name, p) ∈ r.column_profiles ∧
          p.unique_count = 0 ∧ p.unique_ratio = 0 ∧ p.entropy = none ∧
          p.dominant_value_pct = none ∧ p.near_zero_variance = false ∧
          p.likely_identifier = false) :=
  ⟨by decide, by decide, by decide, by decide,
    c2_all_missing_column trivProvider dfAllMissing colAllMissing
      (by decide) (by decide) (by decide) (by decide)⟩

/-! ## C8 -/

theorem insertionSort_eq_of_perm {α : Type _} [LinearOrder α] {l l2 : List α}
    (h : l.Perm l2) :
    List.insertionSort (· ≤ ·) l = List.insertionSort (· ≤ ·) l2 :=
  List.eq_of_perm_of_sorted
    ((List.perm_insertionSort _ l).trans (h.trans (List.perm_insertionSort _ l2).symm))
    (List.sorted_insertionSort _ l) (List.sorted_insertionSort _ l2)

theorem sortAsc_perm {l l2 : List ℚ} (h : l.Perm l2) : sortAsc l = sortAsc l2 :=
  insertionSort_eq_of_perm h

theorem sortNatAsc_perm {l l2 : List ℕ} (h : l.Perm l2) : sortNatAsc l = sortNatAsc l2 :=
  insertionSort_eq_of_perm h

theorem foldr_max_perm {l l2 : List ℕ} (h : l.Perm l2) :
    l.foldr max 0 = l2.foldr max 0 := by
  induction h with
  | nil => rfl
  | cons x p ih => simp [List.foldr_cons, ih]
  | swap x y l =>
    simp only [List.foldr_cons]
    rw [max_left_comm]
  | trans p q ih1 ih2 => rw [ih1, ih2]

theorem counts_perm {l l2 : List Value} (h : l.Perm l2) :
    (l.dedup.map (fun v => l.count v)).Perm (l2.dedup.map (fun v => l2.count v)) := by
  have h1 : l.dedup.map (fun v => l.count v) = l.dedup.map (fun v => l2.count v) :=
    List.map_congr_left (fun a _ => h.count_eq a)
  rw [h1]
  exact (h.dedup).map _

theorem maxCount_perm {l l2 : List Value} (h : l.Perm l2) : maxCount l = maxCount l2 :=
  foldr_max_perm (counts_perm h)

theorem sortedCounts_perm {l l2 : List Value} (h : l.Perm l2) :
    sortedCounts l = sortedCounts l2 :=
  sortNatAsc_perm (counts_perm h)

theorem probsOf_perm {l l2 : List Value} (h : l.Perm l2) : probsOf l = probsOf l2 := by
  unfold probsOf
  rw [sortedCounts_perm h, h.length_eq]

theorem quantileInterp_perm {l l2 : List ℚ} (h : l.Perm l2) (q : ℚ) :
    quantileInterp l q = quantileInterp l2 q := by
  unfold quantileInterp
  rw [sortAsc_perm h]

/-- Every field of a column profile is invariant under a permutation of the
column's cells. -/
theorem profileColumn_congr (P : StatsProvider) (t : ℕ) {c c2 : Column}
    (hcp : ColPerm c c2) : profileColumn P c t = profileColumn P c2 t := by
  obtain ⟨hname, hdtype, hcells⟩ := hcp
  have hnn : (colNonNull c).Perm (colNonNull c2) := hcells.filterMap id
  have hlen : (colNonNull c).length = (colNonNull c2).length := hnn.length_eq
  have hnun : colNunique c = colNunique c2 := (hnn.dedup).length_eq
  have hur : colUniqueRatio c t = colUniqueRatio c2 t := by
    unfold colUniqueRatio
    rw [hnun]
  have hprobs : probsOf (colNonNull c) = probsOf (colNonNull c2) := probsOf_perm hnn
  have hent : colEntropyScore P c = colEntropyScore P c2 := by
    unfold colEntropyScore
    rw [hnun, hprobs]
  have hdom : colDominantPct c = colDominantPct c2 := by
    unfold colDominantPct
    rw [hnun, maxCount_perm hnn, hlen]
  have hnums : (colNums c).Perm (colNums c2) := hnn.filterMap Value.numQ
  have hsort : sortAsc (colNums c) = sortAsc (colNums c2) := sortAsc_perm hnums
  have hmean : colMean c = colMean c2 := by
    unfold colMean
    rw [hnums.sum_eq, hnums.length_eq]
  have hmin : colMin c = colMin c2 := by
    unfold colMin
    rw [hsort]
  have hmax : colMax c = colMax c2 := by
    unfold colMax
    rw [hsort]
  have hstd : colStd P c = colStd P c2 := by
    unfold colStd
    rw [hsort]
  have hskew : colSkew P c = colSkew P c2 := by
    unfold colSkew
    rw [hsort]
  have hq1 : colQ1 c = colQ1 c2 := quantileInterp_perm hnums _
  have hq3 : colQ3 c = colQ3 c2 := quantileInterp_perm hnums _
  have hocount : colOutlierCount c = colOutlierCount c2 := by
    unfold colOutlierCount
    rw [hq1, hq3]
    exact hnums.countP_eq _
  have hor : colOutlierRaw c t = colOutlierRaw c2 t := by
    unfold colOutlierRaw
    rw [hlen, hocount]
  have hratio : colNumericLikeRatio c = colNumericLikeRatio c2 := by
    unfold colNumericLikeRatio
    rw [(hnn.map Value.textOf).countP_eq, (hnn.map Value.textOf).length_eq]
  have hlik : colLikelyIdentifier P c t = colLikelyIdentifier P c2 t := by
    unfold colLikelyIdentifier
    rw [hur, hent]
  simp only [profileColumn]
  rw [hnun, hur, hent, hdom, hlen, hdtype, hmean, hstd, hmin, hmax, hskew, hor, hratio, hlik]

theorem forall₂_map_eq {α β : Type _} {R : α → α → Prop} {f : α → β} :
    ∀ {l l2 : List α}, List.Forall₂ R l l2 → (∀ a b, R a b → f a = f b) →
      l.map f = l2.map f := by
  intro l l2 h hp
  induction h with
  | nil => rfl
  | cons hab _ ih => simp [hp _ _ hab, ih]

theorem forall₂_filterMap_eq {α β : Type _} {R : α → α → Prop} {f : α → Option β} :
    ∀ {l l2 : List α}, List.Forall₂ R l l2 → (∀ a b, R a b → f a = f b) →
      l.filterMap f = l2.filterMap f := by
  intro l l2 h hp
  induction h with
  | nil => rfl
  | cons hab _ ih => simp [List.filterMap_cons, hp _ _ hab, ih]

theorem forall₂_countP_eq {α : Type _} {R : α → α → Prop} {p : α → Bool} :
    ∀ {l l2 : List α}, List.Forall₂ R l l2 → (∀ a b, R a b → p a = p b) →
      l.countP p = l2.countP p := by
  intro l l2 h hp
  induction h with
  | nil => rfl
  | cons hab _ ih => simp [List.countP_cons, hp _ _ hab, ih]

theorem outer_foldl_zero (P : StatsProvider) (df : DataFrame) (hz : df.nrows = 0) :
    ∀ (L : List Column) (st : LoopState), L.foldl (outerStep P df) st = st := by
  intro L
  induction L with
  | nil => intro st; rfl
  | cons c cs ih =>
    intro st
    simp only [List.foldl_cons, outerStep, if_pos hz]
    exact ih st

/-- **C8** (status: confirmed).  `df_checker_v2` is invariant under any
permutation of the dataset's rows: profiling a dataset and profiling the same
dataset with its rows reordered (same names, same dtypes, each column's cells
permuted by the same reordering; the hypothesis `DFPerm` is even weaker,
allowing a different permutation per column) yield identical results — every
metric of every report field agrees.  Determinism is the reflexive instance:
the embedding is a pure function, re-profiling an unchanged dataset is the
same application and yields the identical report. -/
theorem c8_row_permutation_invariance :
    ∀ (P : StatsProvider) (df df2 : DataFrame), DFPerm df df2 →
      dfCheckerV2 P df = dfCheckerV2 P df2 := by
  intro P df df2 hdf
  obtain ⟨hnr, hcols⟩ := hdf
  by_cases hz : df.nrows = 0
  · have hz2 : df2.nrows = 0 := hnr ▸ hz
    unfold dfCheckerV2
    rw [outer_foldl_zero P df hz, outer_foldl_zero P df2 hz2]
  · have hz2 : df2.nrows ≠ 0 := hnr ▸ hz
    by_cases hcnil : df.cols = []
    · have hc2 : df2.cols = [] := by
        rw [hcnil] at hcols
        exact List.forall₂_nil_left_iff.mp hcols
      unfold dfCheckerV2
      rw [hcnil, hc2]
      exact rfl
    · have hc2 : df2.cols ≠ [] := by
        intro h
        apply hcnil
        have := hcols.length_eq
        rw [h, List.length_nil, List.length_eq_zero] at this
        exact this
      have hdtc : dtypeCountsOf df = dtypeCountsOf df2 := by
        have hcnt : ∀ d : DType,
            df.cols.countP (fun c => c.dtype = d) = df2.cols.countP (fun c => c.dtype = d) :=
          fun d => forall₂_countP_eq hcols (fun a b hab => by
            simp only [decide_eq_decide]
            rw [hab.2.1])
        unfold dtypeCountsOf
        simp only [hcnt]
      have hmiss : highMissingOf df = highMissingOf df2 := by
        unfold highMissingOf
        rw [hnr]
        exact forall₂_filterMap_eq hcols (fun a b hab => by
          have hm : missingPct a df2.nrows = missingPct b df2.nrows := by
            unfold missingPct
            rw [hab.2.2.countP_eq]
          rw [hm, hab.1])
      have hprof : df.cols.map (fun c => (c.name, profileColumn P c df2.nrows)) =
          df2.cols.map (fun c => (c.name, profileColumn P c df2.nrows)) :=
        forall₂_map_eq hcols (fun a b hab => by
          rw [profileColumn_congr P df2.nrows hab, hab.1])
      have hnames : nameProfilesOf df = nameProfilesOf df2 := by
        rw [nameProfilesOf_eq, nameProfilesOf_eq]
        exact forall₂_map_eq hcols (fun a b hab => by rw [hab.1])
      rw [dfCheckerV2_ok P df hcnil hz, dfCheckerV2_ok P df2 hc2 hz2, hnr, hcols.length_eq,
        hdtc, hmiss, hprof, hnames]

/-- Witness for C8: a two-column DataFrame and its row-swapped version produce
the identical report. -/
theorem c8_witness :
    DFPerm dfTwoRows dfTwoRowsSwapped ∧
      dfCheckerV2 trivProvider dfTwoRows = dfCheckerV2 trivProvider dfTwoRowsSwapped :=
  have hp : DFPerm dfTwoRows dfTwoRowsSwapped :=
    ⟨rfl, List.Forall₂.cons ⟨rfl, rfl, List.Perm.swap _ _ _⟩
      (List.Forall₂.cons ⟨rfl, rfl, List.Perm.swap _ _ _⟩ List.Forall₂.nil)⟩
  ⟨hp, c8_row_permutation_invariance trivProvider dfTwoRows dfTwoRowsSwapped hp⟩
